import Mathlib

/-!
Verification development for the Cardano factory-pattern off-chain module
`src/factory/offchain/meshjs/factory.ts`.

The TypeScript module is shallowly embedded: every function from the source
is translated into a Lean definition of the same name.  JavaScript runtime
errors (thrown `Error`s and `TypeError`s raised by property access on
`undefined`) are made explicit with `Except JsError`.  External collaborators
(the MeshJS SDK codecs, the wallet, the Koios provider) are modelled by
deterministic Lean functions or by explicit environment records carrying
their responses, as described in the doc comment of each definition.
-/

namespace Factory

/-- A JavaScript runtime failure: a thrown `Error` with a message, a
`TypeError` raised by accessing a property of `undefined`, or the rejection
of a malformed derivation parameter by the external MeshJS/CSL SDK
(`derivationInvalid`, the spec's §7 `DerivationInputInvalid`; the precise
JS exception class and message of the SDK are external, so the model gives
the rejection its own constructor). -/
inductive JsError where
  | thrown (msg : String)
  | typeError (msg : String)
  | derivationInvalid (msg : String)
deriving DecidableEq, Repr

/-! ### Hex codec

Model of MeshJS `stringToHex` / `hexToString`.  The real functions hex-encode
the UTF-8 bytes of a string; the model encodes each character's code point as
two hex digits, which agrees with the real codec exactly on ASCII strings
(code points below 128), the domain used by every claim. -/

/-- Lower-case hex digit for a value below 16 (as produced by the JS codec). -/
def hexDigitChar (n : Nat) : Char :=
  if n < 10 then Char.ofNat (48 + n) else Char.ofNat (87 + n)

/-- Two-digit hex encoding of one byte. -/
def byteToHexChars (b : Nat) : List Char :=
  [hexDigitChar (b / 16), hexDigitChar (b % 16)]

/-- Hex encoding of a character list, byte by byte. -/
def bytesToHexChars : List Char → List Char
  | [] => []
  | c :: cs => byteToHexChars c.toNat ++ bytesToHexChars cs

/-- Model of MeshJS `stringToHex`: hex-encode a string (exact on ASCII). -/
def stringToHex (s : String) : String := ⟨bytesToHexChars s.data⟩

/-- Numeric value of a hex digit; other characters give 0 (the JS decoder is
never applied to them in this development). -/
def hexCharVal (c : Char) : Nat :=
  if 48 ≤ c.toNat ∧ c.toNat ≤ 57 then c.toNat - 48
  else if 97 ≤ c.toNat ∧ c.toNat ≤ 102 then c.toNat - 87
  else if 65 ≤ c.toNat ∧ c.toNat ≤ 70 then c.toNat - 55
  else 0

/-- Decode hex digit pairs into characters (a trailing unpaired digit is
dropped, as in the JS buffer decoder). -/
def hexCharsToBytes : List Char → List Char
  | c1 :: c2 :: rest => Char.ofNat (16 * hexCharVal c1 + hexCharVal c2) :: hexCharsToBytes rest
  | _ => []

/-- Model of MeshJS `hexToString`: decode a hex string back to a string. -/
def hexToString (s : String) : String := ⟨hexCharsToBytes s.data⟩

/-! ### Plutus data and script parameters -/

/-- Script hashes are modelled below as the (injectively kept) specialized
script they are computed from; see `SHash`. -/
structure AppliedScriptSig where
  dummy : Unit

/-- A typed validator parameter, as built by the MeshJS constructors
`builtinByteString`, `scriptHash` and `outputReference` (source lines 69-82,
98-103, 124-132).  The two `pHash...` constructors carry the template code and
parameter list of the script whose hash is being passed: the real SDK passes
the 28-byte hash string, and the model keeps its preimage, which is faithful
under the spec's stated assumption that the script hash is collision-free.
(`scriptHash(undefined)` — the missing-argument call sites — builds no
parameter at all: the SDK rejects the undefined byte string, see
`scriptHashParam`.) -/
inductive Param where
  | pBytes (b : String)
  | pHashBytes (code : String) (ps : List Param)
  | pScriptHashOf (code : String) (ps : List Param)
  | pOutRef (txHash : String) (outputIndex : Nat)

/-- A compiled validator specialized with an ordered parameter list: the
result of MeshJS `applyParamsToScript`, modelled as the pair of the template
code and the parameters (the real function embeds the parameters into the
code, injectively under the spec's collision-freeness assumption). -/
structure AppliedScript where
  code : String
  params : List Param

/-- Model of `applyParamsToScript` from `@meshsdk/core-csl`: specialize a
compiled template with an ordered parameter list. -/
def applyParamsToScript (code : String) (ps : List Param) : AppliedScript :=
  ⟨code, ps⟩

/-- A script hash / policy id.  Modelled as a wrapper around the specialized
script it hashes: the real `resolveScriptHash` is a cryptographic hash that
the spec assumes collision-free, so the model keeps the preimage. -/
structure SHash where
  preimage : AppliedScript

/-- Model of MeshJS `resolveScriptHash` (the `'V3'` version argument of the
source is fixed and omitted). -/
def resolveScriptHash (s : AppliedScript) : SHash := ⟨s⟩

/-- Model of the MeshJS `builtinByteString` data constructor. -/
def builtinByteString (b : String) : Param := .pBytes b

/-- `builtinByteString` applied to a policy-id string (source line 128 passes
`factory.factoryMarker.policyId`, a script hash, as a byte string). -/
def builtinByteStringOfHash (h : SHash) : Param :=
  .pHashBytes h.preimage.code h.preimage.params

/-- The parameter built by the MeshJS `scriptHash` data constructor for a
defined script hash. -/
def scriptHashParamOf (h : SHash) : Param :=
  .pScriptHashOf h.preimage.code h.preimage.params

/-- Model of the MeshJS `scriptHash` data constructor; the argument may be
`undefined` in the source (missing-argument call sites), hence `Option`.
Modelled from the spec for the undefined case: §4.1/§7 make a malformed
derivation parameter fatal (`DerivationInputInvalid`), and the external
MeshJS/CSL path rejects an undefined byte string (the constructor's
validation, or the CSL Plutus-data JSON parser on the serialized `{}`), so
`scriptHash(undefined)` raises the rejection instead of yielding a benign
parameter. -/
def scriptHashParam : Option SHash → Except JsError Param
  | some h => .ok (scriptHashParamOf h)
  | none => .error (.derivationInvalid "scriptHash parameter is undefined")

/-- Model of the MeshJS `outputReference` data constructor. -/
def outputReference (txHash : String) (outputIndex : Nat) : Param :=
  .pOutRef txHash outputIndex

/-- Plutus data values, as built by MeshJS `mConStr0` and decoded by
`deserializeDatum`.  `policyBytes` is a byte string holding a policy id
(appears only inside redeemers in the source). -/
inductive PlutusData where
  | constr (tag : Nat) (fields : List PlutusData)
  | bytes (hexStr : String)
  | policyBytes (h : SHash)
  | pList (items : List PlutusData)

/-- Model of MeshJS `mConStr0`: constructor 0 with the given field list. -/
def mConStr0 (fields : List PlutusData) : PlutusData := .constr 0 fields

/-! ### Network configuration (source lines 23-25) -/

def NETWORK : String := "preprod"

def NETWORK_ID : Nat := 0

/-- `FACTORY_MARKER_NAME_HEX = stringToHex('FACTORY_MARKER')` (source line 25). -/
def FACTORY_MARKER_NAME_HEX : String := stringToHex "FACTORY_MARKER"

/-! ### Addresses -/

/-- An address: either a wallet (bech32) address string coming from the
external wallet, or a script address, which the source computes by
serializing a script hash together with the network id
(`serializePlutusScript`). -/
inductive Addr where
  | wallet (bech : String)
  | script (h : SHash) (networkId : Nat)

/-- Model of `getScriptAddress` (source lines 53-60): serialize the script's
hash plus the network discriminator into an address. -/
def getScriptAddress (compiled : AppliedScript) : Addr :=
  .script (resolveScriptHash compiled) NETWORK_ID

/-! ### Blueprint and validator lookup -/

/-- One entry of the compiled-validator blueprint. -/
structure Validator where
  title : String
  compiledCode : String

/-- `beginsWith p s = true` iff the character list `s` begins with `p`;
model of JavaScript `String.prototype.startsWith` on string data. -/
def beginsWith : List Char → List Char → Bool
  | [], _ => true
  | _ :: _, [] => false
  | p :: ps, c :: cs => p == c && beginsWith ps cs

/-- Modelled from the spec: the compiled-validator blueprint
(`onchain/aiken/plutus.json`, imported at source line 17 but not under
`src/`).  Per spec §6 the lookup is keyed by the name beginnings
`"factory."`, `"factory_marker."` and `"product"`; the blueprint therefore
holds one validator per template, with distinct opaque compiled codes. -/
def blueprintValidators : List Validator :=
  [⟨"factory.factory.else", "factoryCompiledCode"⟩,
   ⟨"factory_marker.factory_marker.else", "factoryMarkerCompiledCode"⟩,
   ⟨"product.product.else", "productCompiledCode"⟩]

/-- `getValidator` (source lines 47-51): first blueprint validator whose
title begins with `name`; throws `Validator not found: <name>` otherwise. -/
def getValidator (name : String) : Except JsError String :=
  match blueprintValidators.find? (fun v => beginsWith name.data v.title.data) with
  | some v => .ok v.compiledCode
  | none => .error (.thrown ("Validator not found: " ++ name))

/-! ### UTxOs and assets -/

/-- An asset unit: either an opaque unit string carried by a wallet UTxO, or
the concatenation `policyId + assetNameHex` built by the source (kept as a
pair, which is faithful because policy ids have fixed length). -/
inductive UnitId where
  | str (s : String)
  | policyName (policy : SHash) (assetNameHex : String)

/-- An asset amount entry `{unit, quantity}`. -/
structure Asset where
  unit : UnitId
  quantity : String

/-- A transaction output reference `{txHash, outputIndex}`. -/
structure TxOutRef where
  txHash : String
  outputIndex : Nat

/-- The output part of a UTxO; `plutusData` is `none` when the JS field is
absent or `undefined`, and the stored datum is kept structured (the external
CBOR round trip is assumed exact). -/
structure UTxOOutput where
  address : Addr
  amount : List Asset
  plutusData : Option PlutusData := none

/-- A UTxO as fetched from the provider. -/
structure UTxO where
  input : TxOutRef
  output : UTxOOutput

/-! ### Factory / product script derivation (source lines 66-138) -/

/-- The `factory` field of the records returned by the derivation helpers. -/
structure ScriptInfo where
  script : AppliedScript
  scriptHash : SHash
  address : Addr

/-- The `factoryMarker` field of `getFactoryMarkerAndScriptDetails`. -/
structure MarkerInfo where
  script : AppliedScript
  policyId : SHash

/-- Return shape of the factory derivation helpers.  `factoryMarker` is
`none` exactly when the JS record has no such field (so reading it yields
`undefined`), as in `getFactoryScriptDetails` (source lines 96-112). -/
structure FactoryDetails where
  factory : ScriptInfo
  factoryMarker : Option MarkerInfo

/-- JavaScript member access `x.factoryMarker.<field>`: reading a property of
`undefined` raises a `TypeError`. -/
def readMarker : Option MarkerInfo → Except JsError MarkerInfo
  | none => .error (.typeError "Cannot read properties of undefined (reading 'policyId')")
  | some m => .ok m

/-- `getFactoryMarkerAndScriptDetails` (source lines 66-95): specialize the
factory-marker template with `(ownerPkh, seed output reference)`, the factory
template with `(ownerPkh, marker hash)`, and return both script records. -/
def getFactoryMarkerAndScriptDetails (ownerPkh : String) (seedUtxo : UTxO) :
    Except JsError FactoryDetails := do
  let markerCode ← getValidator "factory_marker."
  let factoryMarkerScript := applyParamsToScript markerCode
    [builtinByteString ownerPkh,
     outputReference seedUtxo.input.txHash seedUtxo.input.outputIndex]
  let factoryCode ← getValidator "factory."
  let markerHashParam ← scriptHashParam (some (resolveScriptHash factoryMarkerScript))
  let factoryScript := applyParamsToScript factoryCode
    [builtinByteString ownerPkh, markerHashParam]
  pure
    { factory :=
        { script := factoryScript
          scriptHash := resolveScriptHash factoryScript
          address := getScriptAddress factoryScript }
      factoryMarker := some
        { script := factoryMarkerScript
          policyId := resolveScriptHash factoryMarkerScript } }

/-- `getFactoryScriptDetails` (source lines 96-112): specialize the factory
template with `(ownerPkh, markerPolicyId)` and return a record holding ONLY a
`factory` field (its `factoryMarker` is absent, i.e. `none`).
`markerPolicyId` is `Option` because the source's claim-relevant call sites
(lines 122, 231, 315) pass no second argument (JavaScript `undefined`): on
those calls `scriptHash(undefined)` is rejected by the SDK (see
`scriptHashParam`) and the whole call throws, returning no record. -/
def getFactoryScriptDetails (ownerPkh : String) (markerPolicyId : Option SHash) :
    Except JsError FactoryDetails := do
  let factoryCode ← getValidator "factory."
  let markerHashParam ← scriptHashParam markerPolicyId
  let factoryScript := applyParamsToScript factoryCode
    [builtinByteString ownerPkh, markerHashParam]
  pure
    { factory :=
        { script := factoryScript
          scriptHash := resolveScriptHash factoryScript
          address := getScriptAddress factoryScript }
      factoryMarker := none }

/-- Return shape of `getProductScriptDetails`. -/
structure ProductDetails where
  script : AppliedScript
  address : Addr

/-- The product-script specialization of source lines 124-132, with the
marker policy id passed explicitly: parameters
`[ownerPkh, markerPolicy, stringToHex productId]` applied to the `product`
template.  (`getProductScriptDetails` below never reaches this point, because
it reads the marker policy from a record that lacks the field.) -/
def productScriptOf (ownerPkh : String) (markerPolicy : SHash) (productId : String) :
    AppliedScript :=
  applyParamsToScript "productCompiledCode"
    [builtinByteString ownerPkh,
     builtinByteStringOfHash markerPolicy,
     builtinByteString (stringToHex productId)]

/-- `getProductScriptDetails` (source lines 118-138): calls
`getFactoryScriptDetails(ownerPkh)` with only one argument (line 122), so
the undefined marker parameter is rejected inside that call and the whole
derivation throws on every input.  The subsequent read of
`factory.factoryMarker.policyId` (line 128) — a field the returned record
would not have — is translated below but never reached. -/
def getProductScriptDetails (ownerPkh : String) (productId : String) :
    Except JsError ProductDetails := do
  let factory ← getFactoryScriptDetails ownerPkh none
  let marker ← readMarker factory.factoryMarker
  let productCode ← getValidator "product"
  let script := applyParamsToScript productCode
    [builtinByteString ownerPkh,
     builtinByteStringOfHash marker.policyId,
     builtinByteString (stringToHex productId)]
  pure { script := script, address := getScriptAddress script }

/-! ### Transaction builder (model of `MeshTxBuilder`)

The builder is modelled as a record accumulating the transition description;
each chained method of the source becomes a pure function on `Tx`.  Methods
that configure the item just added (`mintingScript`, `mintRedeemerValue`,
`txInScript`, `txInRedeemerValue`, `txInInlineDatumPresent`,
`txOutInlineDatumValue`) update the last element of the relevant queue, as
the SDK does.  `complete`, signing and submission are the external ledger
gateway; the endpoint functions below return the assembled `Tx`. -/

/-- A redeemer value: the source passes both plain strings (`""`) and
structured `mConStr0` data. -/
inductive RedVal where
  | str (s : String)
  | data (d : PlutusData)

/-- One script input of the transition being assembled. -/
structure TxInputItem where
  txHash : String
  outputIndex : Nat
  amount : List Asset
  address : Addr
  inlineDatumPresent : Bool := false
  redeemer : Option RedVal := none
  script : Option AppliedScript := none

/-- One mint entry of the transition being assembled. -/
structure MintItem where
  quantity : String
  policyId : SHash
  assetNameHex : String
  script : Option AppliedScript := none
  redeemer : Option RedVal := none

/-- One output of the transition being assembled. -/
structure TxOutItem where
  address : Addr
  assets : List Asset
  inlineDatum : Option PlutusData := none

/-- The transition description accumulated by the builder. -/
structure Tx where
  network : Option String := none
  inputs : List TxInputItem := []
  mints : List MintItem := []
  outputs : List TxOutItem := []
  requiredSigners : List String := []
  collateral : List TxOutRef := []
  changeAddr : Option String := none
  utxoPool : List UTxO := []

/-- Replace the last element of a list by its image under `f`. -/
def updateLast (f : α → α) : List α → List α
  | [] => []
  | [x] => [f x]
  | x :: y :: xs => x :: updateLast f (y :: xs)

def Tx.setNetwork (tx : Tx) (n : String) : Tx := { tx with network := some n }

def Tx.txIn (tx : Tx) (txHash : String) (outputIndex : Nat)
    (amount : List Asset) (address : Addr) : Tx :=
  { tx with inputs := tx.inputs ++
      [{ txHash := txHash, outputIndex := outputIndex,
         amount := amount, address := address }] }

/-- `spendingPlutusScriptV3` selects the script version for the next input;
the version is fixed in this development, so the call is a no-op marker. -/
def Tx.spendingPlutusScriptV3 (tx : Tx) : Tx := tx

/-- `mintPlutusScriptV3` selects the script version for the next mint;
no-op marker as above. -/
def Tx.mintPlutusScriptV3 (tx : Tx) : Tx := tx

def Tx.txInInlineDatumPresent (tx : Tx) : Tx :=
  { tx with inputs := updateLast (fun i => { i with inlineDatumPresent := true }) tx.inputs }

def Tx.txInRedeemerValue (tx : Tx) (r : RedVal) : Tx :=
  { tx with inputs := updateLast (fun i => { i with redeemer := some r }) tx.inputs }

def Tx.txInScript (tx : Tx) (s : AppliedScript) : Tx :=
  { tx with inputs := updateLast (fun i => { i with script := some s }) tx.inputs }

def Tx.mint (tx : Tx) (quantity : String) (policyId : SHash) (assetNameHex : String) : Tx :=
  { tx with mints := tx.mints ++
      [{ quantity := quantity, policyId := policyId, assetNameHex := assetNameHex }] }

def Tx.mintingScript (tx : Tx) (s : AppliedScript) : Tx :=
  { tx with mints := updateLast (fun m => { m with script := some s }) tx.mints }

def Tx.mintRedeemerValue (tx : Tx) (r : RedVal) : Tx :=
  { tx with mints := updateLast (fun m => { m with redeemer := some r }) tx.mints }

def Tx.txOut (tx : Tx) (address : Addr) (assets : List Asset) : Tx :=
  { tx with outputs := tx.outputs ++ [{ address := address, assets := assets }] }

def Tx.txOutInlineDatumValue (tx : Tx) (d : PlutusData) : Tx :=
  { tx with outputs := updateLast (fun o => { o with inlineDatum := some d }) tx.outputs }

def Tx.requiredSignerHash (tx : Tx) (pkh : String) : Tx :=
  { tx with requiredSigners := tx.requiredSigners ++ [pkh] }

def Tx.txInCollateral (tx : Tx) (txHash : String) (outputIndex : Nat) : Tx :=
  { tx with collateral := tx.collateral ++ [{ txHash := txHash, outputIndex := outputIndex }] }

def Tx.changeAddress (tx : Tx) (addr : String) : Tx :=
  { tx with changeAddr := some addr }

def Tx.selectUtxosFrom (tx : Tx) (utxos : List UTxO) : Tx :=
  { tx with utxoPool := utxos }

/-! ### Endpoint environment -/

/-- Responses of the external wallet and provider collaborators, fetched at
the start of each endpoint: the wallet's change address, the owner key hash
(`resolvePaymentKeyHash(changeAddr)`, computed by the external SDK), the
UTxOs at the change address (`provider.fetchAddressUTxOs`) and the wallet's
collateral UTxOs (`wallet.getCollateral`). -/
structure WalletEnv where
  changeAddr : String
  ownerPkh : String
  walletUtxos : List UTxO
  collateral : List UTxO

/-- JavaScript `xs[i].member` where `xs[i]` may be `undefined`: out-of-range
indexing followed by member access raises a `TypeError`. -/
def jsGet : List α → Nat → Except JsError α
  | [], _ => .error (.typeError "Cannot read properties of undefined")
  | x :: _, 0 => .ok x
  | _ :: xs, n + 1 => jsGet xs n

/-! ### 1. `createFactory` (source lines 143-213) -/

/-- `createFactory`: derives the marker and factory scripts from the owner
key hash and the first wallet UTxO (the one-shot seed), then assembles the
creation transition: spend the seed, mint one `FACTORY_MARKER` unit under the
marker policy, and lock that unit at the factory address with the empty-list
datum `mConStr0([[]])`.  Fails with `No wallet UTxOs` when the wallet has no
UTxOs (line 151).  Signing and submission are external and not modelled; the
assembled transition is returned. -/
def createFactory (env : WalletEnv) : Except JsError Tx :=
  match env.walletUtxos with
  | [] => .error (.thrown "No wallet UTxOs")
  | seedUtxo :: _ => do
    let ownerPkh := env.ownerPkh
    let factory ← getFactoryMarkerAndScriptDetails ownerPkh seedUtxo
    let marker ← readMarker factory.factoryMarker
    let tx := Tx.setNetwork {} NETWORK
    let tx := tx.txIn seedUtxo.input.txHash seedUtxo.input.outputIndex
      seedUtxo.output.amount seedUtxo.output.address
    let tx := tx.mintPlutusScriptV3
    let tx := tx.mint "1" marker.policyId FACTORY_MARKER_NAME_HEX
    let tx := tx.mintingScript marker.script
    let tx := tx.mintRedeemerValue (.str "")
    let tx := tx.txOut factory.factory.address
      [{ unit := .policyName marker.policyId FACTORY_MARKER_NAME_HEX, quantity := "1" }]
    let tx := tx.txOutInlineDatumValue (mConStr0 [.pList []])
    let tx := tx.requiredSignerHash ownerPkh
    let c0 ← jsGet env.collateral 0
    let tx := tx.txInCollateral c0.input.txHash c0.input.outputIndex
    let tx := tx.changeAddress env.changeAddr
    let tx := tx.selectUtxosFrom env.walletUtxos
    pure tx

/-! ### 2. `createProduct` (source lines 220-305) -/

/-- The product datum built at creation (source line 237):
`mConStr0([stringToHex(tag)])`. -/
def productDatumOf (tag : String) : PlutusData :=
  mConStr0 [.bytes (stringToHex tag)]

/-- `createProduct`: derives the factory record via
`getFactoryScriptDetails(ownerPkh)` (line 231, second argument missing) and
the product record via `getProductScriptDetails` (line 232).  Already the
first call throws (the undefined marker parameter is rejected, see
`scriptHashParam`), so everything after it — the product derivation,
spending the factory UTxO, minting the product NFT and producing the
product output — is unreachable; it is nonetheless translated below as in
the source. -/
def createProduct (env : WalletEnv) (productId : String) (tag : String) :
    Except JsError Tx := do
  let ownerPkh := env.ownerPkh
  let factory ← getFactoryScriptDetails ownerPkh none
  let product ← getProductScriptDetails ownerPkh productId
  let productDatum := productDatumOf tag
  let u0 ← jsGet env.walletUtxos 0
  let marker ← readMarker factory.factoryMarker
  let redeemerData := mConStr0 [.policyBytes marker.policyId, .bytes (stringToHex productId)]
  let tx := Tx.setNetwork {} NETWORK
  let tx := tx.spendingPlutusScriptV3
  let tx := tx.txIn u0.input.txHash u0.input.outputIndex
    u0.output.amount factory.factory.address
  let tx := tx.txInInlineDatumPresent
  let tx := tx.txInRedeemerValue (.data redeemerData)
  let tx := tx.txInScript factory.factory.script
  let tx := tx.mintPlutusScriptV3
  let tx := tx.mint "1" factory.factory.scriptHash (stringToHex productId)
  let tx := tx.mintingScript factory.factory.script
  let tx := tx.mintRedeemerValue (.data redeemerData)
  let tx := tx.txOut product.address
    [{ unit := .policyName factory.factory.scriptHash (stringToHex productId),
       quantity := "1" }]
  let tx := tx.txOutInlineDatumValue productDatum
  let tx := tx.requiredSignerHash ownerPkh
  let c0 ← jsGet env.collateral 0
  let tx := tx.txInCollateral c0.input.txHash c0.input.outputIndex
  let tx := tx.changeAddress env.changeAddr
  let tx := tx.selectUtxosFrom env.walletUtxos
  pure tx

/-! ### 3. Read helpers (source lines 314-370) -/

/-- One asset row of the Koios `policy_asset_list` response. -/
structure KoiosAsset where
  assetNameHex : String
  fingerprint : String

/-- The HTTP response of the Koios asset-list query: `ok` status, status
text, and the parsed JSON body (a list of asset rows). -/
structure HttpResponse where
  ok : Bool
  statusText : String
  assets : List KoiosAsset

/-- One entry of the list returned by `getProducts`. -/
structure ProductEntry where
  productId : String
  policyId : SHash
  fingerprint : String

/-- `getProducts` (source lines 314-344): derives the factory record via
`getFactoryScriptDetails(ownerPkh)` (line 315, second argument missing), so
the derivation is rejected and the call throws on every input before
querying anything.  The unreachable remainder — take the factory script hash
as the product policy, check the HTTP response (the external collaborator's
answer, passed in), and map each asset to an entry whose product id is the
decoded asset name, with no signature or authorization check — is
translated below as in the source. -/
def getProducts (ownerPkh : String) (response : HttpResponse) :
    Except JsError (List ProductEntry) := do
  let factory ← getFactoryScriptDetails ownerPkh none
  let productPolicyId := factory.factory.scriptHash
  if !response.ok then
    .error (.thrown ("Koios error: " ++ response.statusText))
  else
    pure (response.assets.map fun asset =>
      { productId := hexToString asset.assetNameHex
        policyId := productPolicyId
        fingerprint := asset.fingerprint })

/-- Model of MeshJS `deserializeDatum`: the stored inline datum is kept
structured in this development, so the external CBOR decode is the
identity. -/
def deserializeDatum (d : PlutusData) : PlutusData := d

/-- The datum read of `getTag` (source line 360): `datum.fields[0].bytes`.
On a constructor datum whose first field is a byte string it returns that
hex string; otherwise some member access hits `undefined` and raises a
`TypeError`. -/
def readDatumTagHex : PlutusData → Except JsError String
  | .constr _ (.bytes h :: _) => .ok h
  | .constr _ (_ :: _) =>
      .error (.typeError "Cannot read properties of undefined (reading 'bytes')")
  | .constr _ [] =>
      .error (.typeError "Cannot read properties of undefined (reading 'bytes')")
  | _ => .error (.typeError "Cannot read properties of undefined (reading '0')")

/-- `getTag` (source lines 347-361): re-derive the product address, fetch
its UTxOs (`fetchAddressUTxOs` is the external provider, passed as a
function), fail with `Product datum not found` when there is none or the
first one carries no datum, else decode the stored tag.  The first step
always throws (see `getProductScriptDetails`). -/
def getTag (fetchAddressUTxOs : Addr → List UTxO)
    (ownerPkh : String) (productId : String) : Except JsError String := do
  let product ← getProductScriptDetails ownerPkh productId
  let utxos := fetchAddressUTxOs product.address
  match utxos with
  | [] => .error (.thrown "Product datum not found")
  | u :: _ =>
    match u.output.plutusData with
    | none => .error (.thrown "Product datum not found")
    | some pd => do
      let datum := deserializeDatum pd
      let tagHex ← readDatumTagHex datum
      pure (hexToString tagHex)

/-! ### Hex codec lemmas -/

/-- A string on which the modelled hex codec agrees exactly with the real
UTF-8 codec: every character is ASCII. -/
def AsciiStr (s : String) : Prop := ∀ c ∈ s.data, c.toNat < 128

instance (s : String) : Decidable (AsciiStr s) := by
  unfold AsciiStr; infer_instance

theorem hexRoundByte (b : Nat) (hb : b < 128) :
    16 * hexCharVal (hexDigitChar (b / 16)) + hexCharVal (hexDigitChar (b % 16)) = b := by
  revert hb; revert b; decide

theorem hexCharsToBytes_bytesToHexChars (l : List Char)
    (h : ∀ c ∈ l, c.toNat < 128) :
    hexCharsToBytes (bytesToHexChars l) = l := by
  induction l with
  | nil => rfl
  | cons c cs ih =>
    have hc : c.toNat < 128 := h c (List.mem_cons_self c cs)
    have hcs : ∀ x ∈ cs, x.toNat < 128 := fun x hx => h x (List.mem_cons_of_mem c hx)
    show hexCharsToBytes
      (hexDigitChar (c.toNat / 16) :: hexDigitChar (c.toNat % 16) :: bytesToHexChars cs)
      = c :: cs
    rw [hexCharsToBytes, hexRoundByte c.toNat hc, Char.ofNat_toNat, ih hcs]

/-- Round trip of the hex codec on ASCII strings. -/
theorem hexToString_stringToHex (s : String) (h : AsciiStr s) :
    hexToString (stringToHex s) = s := by
  cases s with
  | mk data =>
    show String.mk (hexCharsToBytes (bytesToHexChars data)) = String.mk data
    rw [hexCharsToBytes_bytesToHexChars data h]

/-- The hex encoder is injective on ASCII strings. -/
theorem stringToHex_inj (a b : String) (ha : AsciiStr a) (hb : AsciiStr b)
    (h : stringToHex a = stringToHex b) : a = b := by
  rw [← hexToString_stringToHex a ha, ← hexToString_stringToHex b hb, h]

/-! ### Named derivation helpers (abbreviations of the derivation results,
used to state the theorems below) -/

/-- The specialized factory-marker script for `(ownerPkh, seed)`, as built
inside `getFactoryMarkerAndScriptDetails`. -/
def markerScriptOf (ownerPkh : String) (seedUtxo : UTxO) : AppliedScript :=
  applyParamsToScript "factoryMarkerCompiledCode"
    [builtinByteString ownerPkh,
     outputReference seedUtxo.input.txHash seedUtxo.input.outputIndex]

/-- The specialized factory script for `(ownerPkh, marker hash)`, as built
inside `getFactoryMarkerAndScriptDetails`. -/
def factoryScriptOfSeed (ownerPkh : String) (seedUtxo : UTxO) : AppliedScript :=
  applyParamsToScript "factoryCompiledCode"
    [builtinByteString ownerPkh,
     scriptHashParamOf (resolveScriptHash (markerScriptOf ownerPkh seedUtxo))]

/-! ### Sample data for witnesses and failing inputs -/

/-- A concrete wallet UTxO (the one-shot seed of the end-to-end scenario). -/
def sampleSeed : UTxO :=
  { input := { txHash := "abc", outputIndex := 0 }
    output :=
      { address := .wallet "addr_test1qowner"
        amount := [{ unit := .str "lovelace", quantity := "10000000" }] } }

/-- A concrete collateral UTxO. -/
def sampleCollateral : UTxO :=
  { input := { txHash := "col", outputIndex := 1 }
    output :=
      { address := .wallet "addr_test1qowner"
        amount := [{ unit := .str "lovelace", quantity := "5000000" }] } }

/-- A concrete wallet environment with one UTxO and one collateral. -/
def sampleEnv : WalletEnv :=
  { changeAddr := "addr_test1qowner"
    ownerPkh := "72b46a9927fd32da5c2f11365b6f20f9af930e63974e4f8935064215"
    walletUtxos := [sampleSeed]
    collateral := [sampleCollateral] }

/-- A concrete marker policy id (hash of the marker script for the sample
owner and seed). -/
def sampleMarkerPolicy : SHash :=
  resolveScriptHash (markerScriptOf sampleEnv.ownerPkh sampleSeed)

/-- A ledger view that holds, at every address, one UTxO carrying a valid
product datum: even against this view `getTag` fails (claim C7). -/
def richLedger : Addr → List UTxO := fun a =>
  [{ input := { txHash := "prod", outputIndex := 0 }
     output :=
       { address := a
         amount := [{ unit := .str "lovelace", quantity := "2000000" }]
         plutusData := some (productDatumOf "organic-honey") } }]

/-! ### Claim theorems -/

/-- C1: Address derivation is deterministic: the factory/marker derivation
and the product derivation are pure functions of the template and the
ordered parameters — equal inputs give equal identity hashes and addresses
(for the product derivation, equal results in general, it never returns a
value; see C2). -/
theorem derivation_deterministic (o o' p p' : String) (s s' : UTxO)
    (ho : o = o') (hs : s = s') (hp : p = p') :
    getFactoryMarkerAndScriptDetails o s = getFactoryMarkerAndScriptDetails o' s' ∧
    getProductScriptDetails o p = getProductScriptDetails o' p' := by
  subst ho; subst hs; subst hp; exact ⟨rfl, rfl⟩

/-- Witness for C1 at the sample owner, seed and product id. -/
theorem derivation_deterministic_witness :
    getFactoryMarkerAndScriptDetails "72b46a9927fd32da5c2f11365b6f20f9af930e63974e4f8935064215" sampleSeed =
      getFactoryMarkerAndScriptDetails "72b46a9927fd32da5c2f11365b6f20f9af930e63974e4f8935064215" sampleSeed ∧
    getProductScriptDetails "72b46a9927fd32da5c2f11365b6f20f9af930e63974e4f8935064215" "firefly-002" =
      getProductScriptDetails "72b46a9927fd32da5c2f11365b6f20f9af930e63974e4f8935064215" "firefly-002" :=
  derivation_deterministic _ _ _ _ sampleSeed sampleSeed rfl rfl rfl

/-- C2: `getProductScriptDetails` calls `getFactoryScriptDetails` with only
the owner argument, a call that can only fail: the record
`getFactoryScriptDetails` would return carries no `factoryMarker` field (the
read of `factory.factoryMarker.policyId` at line 128 is doomed), and already
the undefined marker parameter inside the one-argument call is rejected by
the SDK.  Consequently `getProductScriptDetails` raises a runtime error on
every input instead of returning a derived product address, and so do
`createProduct` and `getTag`, which depend on it. -/
theorem marker_argument_missing_error (o p t : String) (h : SHash)
    (fetch : Addr → List UTxO) (env : WalletEnv) :
    (∃ d, getFactoryScriptDetails o (some h) = .ok d ∧ d.factoryMarker = none) ∧
    getProductScriptDetails o p =
      .error (.derivationInvalid "scriptHash parameter is undefined") ∧
    getTag fetch o p =
      .error (.derivationInvalid "scriptHash parameter is undefined") ∧
    createProduct env p t =
      .error (.derivationInvalid "scriptHash parameter is undefined") :=
  ⟨⟨_, rfl, rfl⟩, rfl, rfl, rfl⟩

/-- C3: `createProduct` never produces any transition at all — its broken
one-argument factory derivation raises a runtime error on every input, so
in particular it never produces the claimed two outputs (updated
FactoryState plus new ProductState). -/
theorem createProduct_builds_no_transition (env : WalletEnv) (productId tag : String) :
    createProduct env productId tag =
      .error (.derivationInvalid "scriptHash parameter is undefined") :=
  rfl

/-- C4: `createProduct`, evaluated at the scenario input (sample wallet,
product id `firefly-002`, tag `organic-honey`), raises a runtime error and
therefore mints nothing — the mint statement of its transition-assembly code
is never reached. -/
theorem createProduct_mints_nothing_at_scenario :
    createProduct sampleEnv "firefly-002" "organic-honey" =
      .error (.derivationInvalid "scriptHash parameter is undefined") :=
  rfl

/-- C5 counterexample: at owner `"ab"` and the distinct product ids `"x"`
and `"y"`, the product derivation returns errors, not addresses — so no two
derived product addresses exist, let alone differ. -/
theorem product_address_injectivity_cex :
    getProductScriptDetails "ab" "x" =
      .error (.derivationInvalid "scriptHash parameter is undefined") ∧
    getProductScriptDetails "ab" "y" =
      .error (.derivationInvalid "scriptHash parameter is undefined") :=
  ⟨rfl, rfl⟩

/-- C5 amended: the product-script specialization of source lines 124-132
(owner, marker policy, hex product id applied to the product template) is
injective in the product id for ASCII product ids — distinct ids give
distinct specialized scripts and hence, the script hash being collision-free
over the parameter tuple (which the model realizes by keeping hash
preimages), distinct addresses.  The endpoint `getProductScriptDetails`
itself never reaches this specialization (see C2). -/
theorem productScript_address_inj (o : String) (m : SHash) (p1 p2 : String)
    (h1 : AsciiStr p1) (h2 : AsciiStr p2) (hne : p1 ≠ p2) :
    getScriptAddress (productScriptOf o m p1) ≠ getScriptAddress (productScriptOf o m p2) := by
  intro h
  apply hne
  apply stringToHex_inj p1 p2 h1 h2
  simpa [getScriptAddress, productScriptOf, applyParamsToScript, resolveScriptHash,
    builtinByteString, builtinByteStringOfHash] using h

/-- Witness for the amended C5 at concrete owner, marker policy and the
distinct ids `"x"` and `"y"`. -/
theorem productScript_address_inj_witness :
    getScriptAddress (productScriptOf "ab" sampleMarkerPolicy "x") ≠
    getScriptAddress (productScriptOf "ab" sampleMarkerPolicy "y") :=
  productScript_address_inj "ab" sampleMarkerPolicy "x" "y"
    (by decide) (by decide) (by decide)

/-- C6: for every wallet environment with at least one UTxO and one
collateral, `createFactory` assembles a transition that mints exactly one
unit under the marker policy with the fixed asset name
`stringToHex "FACTORY_MARKER"`, and has exactly one output, locking that
marker unit at the factory address with the inline datum of constructor 0
whose single field is the empty product list. -/
theorem createFactory_mint_and_lock
    (changeAddr ownerPkh : String) (u : UTxO) (rest : List UTxO)
    (c0 : UTxO) (cs : List UTxO) :
    ∃ tx : Tx,
      createFactory ⟨changeAddr, ownerPkh, u :: rest, c0 :: cs⟩ = .ok tx ∧
      tx.mints =
        [{ quantity := "1"
           policyId := resolveScriptHash (markerScriptOf ownerPkh u)
           assetNameHex := FACTORY_MARKER_NAME_HEX
           script := some (markerScriptOf ownerPkh u)
           redeemer := some (.str "") }] ∧
      tx.outputs =
        [{ address := getScriptAddress (factoryScriptOfSeed ownerPkh u)
           assets :=
             [{ unit := .policyName (resolveScriptHash (markerScriptOf ownerPkh u))
                          FACTORY_MARKER_NAME_HEX
                quantity := "1" }]
           inlineDatum := some (mConStr0 [.pList []]) }] ∧
      FACTORY_MARKER_NAME_HEX = stringToHex "FACTORY_MARKER" :=
  ⟨_, rfl, rfl, rfl, rfl⟩

/-- C7: `getTag` raises a runtime error on every input — even against a
ledger view that holds a product UTxO with a valid tag datum at every
address — so it never returns a stored tag and never reaches its
`Product datum not found` check. -/
theorem getTag_always_typeError (fetch : Addr → List UTxO) (o p : String) :
    getTag fetch o p =
      .error (.derivationInvalid "scriptHash parameter is undefined") :=
  rfl

/-- C8: `getProducts` calls `getFactoryScriptDetails` with only the owner
argument (line 315), so the derivation is rejected and `getProducts` raises
a runtime error on every input — against every HTTP response, even a
successful one — and never returns the claimed one-entry-per-minted-unit
list (its mapping code, which would build exactly that list with no further
authorization check, is unreachable). -/
theorem getProducts_always_errors (ownerPkh : String) (response : HttpResponse) :
    getProducts ownerPkh response =
      .error (.derivationInvalid "scriptHash parameter is undefined") :=
  rfl

/-- C9: the tag datum codec round-trips: encoding an ASCII tag into the
product datum built at creation (`mConStr0([stringToHex(tag)])`) and
decoding it back along the tag-reading path of `getTag`
(`hexToString(datum.fields[0].bytes)` after `deserializeDatum`) returns the
original tag exactly. -/
theorem tag_datum_roundtrip (tag : String) (h : AsciiStr tag) :
    (readDatumTagHex (deserializeDatum (productDatumOf tag))).map hexToString =
      .ok tag := by
  show Except.map hexToString (.ok (stringToHex tag)) = .ok tag
  simp [Except.map, hexToString_stringToHex tag h]

/-- Witness for C9 at the tag `organic-honey`. -/
theorem tag_datum_roundtrip_witness :
    (readDatumTagHex (deserializeDatum (productDatumOf "organic-honey"))).map hexToString =
      .ok "organic-honey" :=
  tag_datum_roundtrip "organic-honey" (by decide)

/-- C10: `createFactory` takes no caller-supplied seed: with an empty wallet
it fails with `No wallet UTxOs` before assembling anything, and with a
nonempty wallet the single spent input of the assembled transition is
exactly the first UTxO returned for the owner's wallet address. -/
theorem createFactory_seed_is_first_utxo
    (changeAddr ownerPkh : String) (cols : List UTxO)
    (u : UTxO) (rest : List UTxO) (c0 : UTxO) (cs : List UTxO) :
    createFactory ⟨changeAddr, ownerPkh, [], cols⟩ =
      .error (.thrown "No wallet UTxOs") ∧
    ∃ tx : Tx,
      createFactory ⟨changeAddr, ownerPkh, u :: rest, c0 :: cs⟩ = .ok tx ∧
      tx.inputs =
        [{ txHash := u.input.txHash
           outputIndex := u.input.outputIndex
           amount := u.output.amount
           address := u.output.address }] :=
  ⟨rfl, _, rfl, rfl⟩

end Factory
